import Mathlib

/-!
Verification of the provider-aggregation core of the Vibra music backend
(`src/music_extractor.py`, with the HTTP boundary in `src/app.py`).

The Python code is shallowly embedded: each method of `MusicExtractor`
becomes a total Lean function; Python exceptions are modelled as `Option`
results (`none` = the call raised) or, for upstream provider calls, as an
`Except Err` value carried by an `Env` record of provider behaviours.
Python truthiness, `int(...)`, `str.split`, `str.strip`, `str.title`,
substring tests and stable descending sorts are modelled by dedicated
helper functions.
-/

/-- Error text of a raised upstream exception (`str(e)` in the Python code). -/
abbrev Err := String

/-- A dynamically-typed Python scalar as it reaches `format_duration`:
`None`, an integer, or a string. -/
inductive PyNum where
  | pnone : PyNum
  | pint (n : Int) : PyNum
  | pstr (s : String) : PyNum
deriving DecidableEq, Repr

/-- Python truthiness of a `PyNum` (`None`, `0` and `""` are falsy). -/
def PyNum.truthy : PyNum → Bool
  | .pnone => false
  | .pint n => n != 0
  | .pstr s => s != ""

/-- Python `str.strip()` on a list of characters: drop leading and trailing
whitespace. -/
def pyStripChars (l : List Char) : List Char :=
  ((l.dropWhile Char.isWhitespace).reverse.dropWhile Char.isWhitespace).reverse

/-- Python `str.strip()`. -/
def pyStrip (s : String) : String := String.mk (pyStripChars s.toList)

/-- Python `int(s)` on a string: optional surrounding whitespace, optional
sign, then decimal digits; anything else raises (`none`). -/
def pyParseInt (s : String) : Option Int :=
  let t := pyStripChars s.toList
  let signAndDigits : Int × List Char :=
    match t with
    | '-' :: rest => (-1, rest)
    | '+' :: rest => (1, rest)
    | l => (1, l)
  let ds := signAndDigits.2
  if ds ≠ [] ∧ ds.all Char.isDigit then
    some (signAndDigits.1 * (ds.foldl (fun a c => a * 10 + (c.toNat - '0'.toNat)) 0 : Nat))
  else none

/-- Python `int(x)` applied to a `PyNum`: `none` models a raised
`ValueError`/`TypeError`. -/
def PyNum.toInt : PyNum → Option Int
  | .pnone => none
  | .pint n => some n
  | .pstr s => pyParseInt s

/-- Python `f"{n:02d}"` for the values produced here (zero-pads a
single-digit non-negative number to width 2). -/
def pad2 (n : Int) : String :=
  if 0 ≤ n ∧ n < 10 then "0" ++ toString n else toString n

/-- `MusicExtractor.format_duration` (src/music_extractor.py lines 403-419):
falsy input → `"Unknown"`; `int()` failure → `"Unknown"`; otherwise Python
floor division / modulus arithmetic and `HH:MM:SS` / `MM:SS` formatting. -/
def format_duration (duration : PyNum) : String :=
  if ¬ duration.truthy then "Unknown"
  else
    match duration.toInt with
    | none => "Unknown"
    | some n =>
      let hours : Int := Int.fdiv n 3600
      let minutes : Int := Int.fdiv (Int.fmod n 3600) 60
      let seconds : Int := Int.fmod n 60
      if hours > 0 then pad2 hours ++ ":" ++ pad2 minutes ++ ":" ++ pad2 seconds
      else pad2 minutes ++ ":" ++ pad2 seconds

/-- Python substring test `sub in s` (`str.__contains__`). -/
def pyContains (s sub : String) : Bool := decide (sub.toList <:+: s.toList)

/-- Decidable check that `p` is a prefix of `l`, as a `Bool`. -/
def pfxB (p l : List Char) : Bool := decide (p <+: l)

/-- Greedy left-to-right splitter on a non-empty separator `c0 :: cs`,
mirroring Python `str.split(sep)`: scan for the leftmost occurrence of the
separator, emit the accumulated part, continue after it. The `skip`
counter counts separator characters still to be consumed after a match,
keeping the recursion structural. -/
def splitOnAux (c0 : Char) (cs : List Char) : List Char → Nat → List Char → List (List Char)
  | [], _, cur => [cur.reverse]
  | _ :: rest, skip + 1, cur => splitOnAux c0 cs rest skip cur
  | c :: rest, 0, cur =>
    if pfxB (c0 :: cs) (c :: rest) then
      cur.reverse :: splitOnAux c0 cs rest cs.length []
    else
      splitOnAux c0 cs rest 0 (c :: cur)

/-- Python `s.split(sep)` for a non-empty separator (empty separator never
occurs in the modelled code). -/
def pySplit (s sep : String) : List String :=
  match sep.toList with
  | [] => [s]
  | c :: cs => (splitOnAux c cs s.toList 0 []).map String.mk

/-- Python `s.split(sep, 1)`: split at the first occurrence of the
separator only, returning the two sides, or `none` when the separator does
not occur. -/
def pySplitOnce (s sep : String) : Option (String × String) :=
  match sep.toList with
  | [] => none
  | c0 :: cs => go c0 cs s.toList []
where
  go (c0 : Char) (cs : List Char) : List Char → List Char → Option (String × String)
    | [], _ => none
    | c :: rest, cur =>
      if pfxB (c0 :: cs) (c :: rest) then
        some (String.mk cur.reverse, String.mk ((c :: rest).drop (cs.length + 1)))
      else go c0 cs rest (c :: cur)

/-- Python `str.lower()` (ASCII). -/
def pyLower (s : String) : String := String.mk (s.toList.map Char.toLower)

/-- One step of Python `str.title()`: a cased character that follows an
uncased character is uppercased, every other cased character is
lowercased. -/
def pyTitleAux : Bool → List Char → List Char
  | _, [] => []
  | prevCased, c :: rest =>
    if c.isAlpha then
      (if prevCased then c.toLower else c.toUpper) :: pyTitleAux true rest
    else
      c :: pyTitleAux false rest

/-- Python `str.title()`. -/
def pyTitleCase (s : String) : String := String.mk (pyTitleAux false s.toList)

/-- Python truthiness of an optional string (absent, `None` and `""` are
falsy). -/
def truthyStr : Option String → Bool
  | none => false
  | some s => s != ""

/-- Python `s[:n]` on a string (slice of the first `n` characters). -/
def pyTake (n : Nat) (s : String) : String := String.mk (s.toList.take n)

/-- Python `s.replace(a, b)`: replace every non-overlapping occurrence,
left to right. -/
def pyReplace (s a b : String) : String :=
  match pySplit s a with
  | [] => s
  | p :: ps => ps.foldl (fun acc q => acc ++ b ++ q) p

/-- An artist object inside a structured-metadata (YTMusic) search result. -/
structure ArtistObj where
  name : Option String := none
deriving DecidableEq, Repr

/-- An album object inside a structured-metadata result. An absent or falsy
`album` value and an album object without a `name` key all yield a null
album name in the converter, so a single optional `name` field suffices. -/
structure AlbumObj where
  name : Option String := none
deriving DecidableEq, Repr

/-- A thumbnail candidate (`{url, width, height}`). A missing `url` key
makes the `['url']` access raise. -/
structure Thumb where
  url : Option String := none
  width : Option Int := none
  height : Option Int := none
deriving DecidableEq, Repr

/-- A raw structured-metadata provider entry, as consumed by
`_convert_ytmusic_to_standard`. `none` fields model absent keys. -/
structure YTItem where
  videoId : Option String := none
  title : Option String := none
  artists : List ArtistObj := []
  album : Option AlbumObj := none
  duration_seconds : PyNum := .pnone
  thumbnails : List Thumb := []
  playlistId : Option String := none
deriving DecidableEq, Repr

/-- An audio/video format candidate from the extraction provider
(`{acodec, quality, url}`). -/
structure FormatEntry where
  acodec : Option String := none
  quality : Option Int := none
  url : Option String := none
deriving DecidableEq, Repr

/-- A raw extraction-provider (yt-dlp) entry, as consumed by
`extract_song_metadata` and the audio-URL operations. `none` models an
absent key. -/
structure RawEntry where
  id : Option String := none
  title : Option String := none
  uploader : Option String := none
  duration : PyNum := .pnone
  url : Option String := none
  formats : Option (List FormatEntry) := none
  thumbnail : Option String := none
  thumbnails : Option (List Thumb) := none
  webpage_url : Option String := none
  view_count : Option Int := none
  like_count : Option Int := none
  upload_date : Option String := none
  description : Option String := none
  extractor : Option String := none
  availability : Option String := none
  live_status : Option String := none
deriving DecidableEq, Repr

/-- The canonical Song/Video record produced by the normalizers. -/
structure SongRecord where
  id : Option String
  title : String
  artist : Option String
  album : Option String
  duration : PyNum
  duration_string : String
  thumbnail : Option String
  poster_image : Option String
  audio_url : Option String
  webpage_url : Option String
  view_count : Option Int
  like_count : Option Int
  uploader : Option String
  upload_date : Option String
  description : String
  extractor : Option String
  availability : Option String
  live_status : Option String
  source : Option String
  category : Option String
deriving DecidableEq, Repr

/-- Stable descending insertion by an integer key: an element is placed
before the first element whose key is not larger, so earlier elements win
ties. -/
def insertDescBy {α : Type} (k : α → Int) (x : α) : List α → List α
  | [] => [x]
  | y :: ys => if k x ≥ k y then x :: y :: ys else y :: insertDescBy k x ys

/-- Python `list.sort(key=..., reverse=True)`: a stable descending sort by
an integer key (Python's sort is stable, and `reverse=True` reverses the
comparison, not the output, so equal-key elements keep original order). -/
def sortDescBy {α : Type} (k : α → Int) (l : List α) : List α :=
  l.foldr (insertDescBy k) []

/-- The sort key `lambda x: x.get('quality', 0) or 0` (missing or falsy
quality counts as 0). -/
def qualityKey (f : FormatEntry) : Int := f.quality.getD 0

/-- The sort key `(x.get('width', 0) or 0) * (x.get('height', 0) or 0)`
used for thumbnails. -/
def thumbKey (t : Thumb) : Int := t.width.getD 0 * t.height.getD 0

/-- The audio-format selection performed in `get_audio_url`
(src/music_extractor.py lines 291-297): keep formats whose `acodec` is not
`'none'`, sort stably by quality descending, return the first one's URL
(`none` both when no audio format remains and when the chosen entry has no
`url` key — in `get_audio_url` the latter raises a `KeyError` whose text is
not bot-detection-class, so the operation also returns `None` there). -/
def selectBestAudioFormat (fs : List FormatEntry) : Option String :=
  let audio := fs.filter (fun f => f.acodec != some "none")
  match sortDescBy qualityKey audio with
  | [] => none
  | best :: _ => best.url

/-- The first maximal element by an integer key: the element with the
largest key, earliest in the list among ties. Stated from the spec's words
for comparison with the sort-based code path. -/
def firstMaxBy {α : Type} (k : α → Int) : List α → Option α
  | [] => none
  | x :: xs =>
    match firstMaxBy k xs with
    | none => some x
    | some y => if k x ≥ k y then some x else some y

/-- The artist/title heuristic inlined in `extract_song_metadata`
(src/music_extractor.py lines 358-372). Returns `(artist, title)`.
`rawTitle`/`uploader` are the entry's `title`/`uploader` values (`none` =
absent key, defaulting to `"Unknown Title"`/`"Unknown Artist"`). -/
def splitArtistTitle (rawTitle uploader : Option String) : String × String :=
  let title := rawTitle.getD "Unknown Title"
  let artist := uploader.getD "Unknown Artist"
  if pyContains title " - " then
    match pySplitOnce title " - " with
    | some (l, r) => (pyStrip l, pyStrip r)
    | none => (artist, title)
  else if pyContains (pyLower title) "by" then
    match pySplit (pyLower title) " by " with
    | [t, a] => (pyTitleCase (pyStrip a), pyTitleCase (pyStrip t))
    | _ => (artist, title)
  else (artist, title)

/-- The duration step of `_convert_ytmusic_to_standard`:
`int(duration_text) if duration_text else None`. The outer `some` layer is
the exception layer (`none` = the `int()` call raised, aborting the whole
conversion). -/
def ytDurationStep (d : PyNum) : Option (Option Int) :=
  if d.truthy then (d.toInt).map some else some none

/-- The thumbnail step of `_convert_ytmusic_to_standard`:
`thumbnails[-1]['url'] if thumbnails else None`; a last entry without a
`url` key raises (outer `none`). -/
def ytThumbStep (ts : List Thumb) : Option (Option String) :=
  match ts.getLast? with
  | none => some none
  | some t => t.url.map some

/-- `MusicExtractor._convert_ytmusic_to_standard`
(src/music_extractor.py lines 138-184). Any raise inside the `try` block
(non-numeric truthy duration string, last thumbnail without a `url`)
yields `none`; otherwise a record is built whose `id` is the entry's
`videoId` value, which the code never checks for presence. -/
def convert_ytmusic_to_standard (it : YTItem) : Option SongRecord := do
  let dur ← ytDurationStep it.duration_seconds
  let thumb ← ytThumbStep it.thumbnails
  let title := it.title.getD "Unknown Title"
  let artist : Option String :=
    match it.artists with
    | [] => some "Unknown Artist"
    | a :: _ => a.name
  let albumName := it.album.bind (fun a => a.name)
  let vidStr := match it.videoId with | some v => v | none => "None"
  pure
    { id := it.videoId
      title := title
      artist := artist
      album := albumName
      duration := match dur with | some n => .pint n | none => .pnone
      duration_string := format_duration (match dur with | some n => .pint n | none => .pnone)
      thumbnail := thumb
      poster_image := thumb
      audio_url := none
      webpage_url := some ("https://www.youtube.com/watch?v=" ++ vidStr)
      view_count := none
      like_count := none
      uploader := artist
      upload_date := none
      description := ""
      extractor := some "ytmusic"
      availability := some "public"
      live_status := some "not_live"
      source := some "ytmusicapi"
      category := none }

/-- The audio-URL step of `extract_song_metadata`
(src/music_extractor.py lines 346-356): direct `url` field wins; otherwise
filter/sort formats; the chosen entry's missing `url` key raises (outer
`none`). -/
def audioStepE (e : RawEntry) : Option (Option String) :=
  match e.url with
  | some u => some (some u)
  | none =>
    match e.formats with
    | none => some none
    | some fs =>
      match sortDescBy qualityKey (fs.filter (fun f => f.acodec != some "none")) with
      | [] => some none
      | best :: _ => best.url.map some

/-- The thumbnail step of `extract_song_metadata`
(src/music_extractor.py lines 374-381): a truthy direct `thumbnail` wins;
otherwise sort `thumbnails` by resolution descending and take the first
URL (a missing `url` key raises, outer `none`). -/
def thumbStepE (e : RawEntry) : Option (Option String) :=
  if truthyStr e.thumbnail then some e.thumbnail
  else
    match e.thumbnails with
    | none => some e.thumbnail
    | some [] => some e.thumbnail
    | some ts =>
      match (sortDescBy thumbKey ts).head? with
      | some t => t.url.map some
      | none => some none

/-- The description step:
`entry.get('description', '')[:500] if entry.get('description') else ''`. -/
def descStep (e : RawEntry) : String :=
  match e.description with
  | some s => if s ≠ "" then pyTake 500 s else ""
  | none => ""

/-- `MusicExtractor.extract_song_metadata`
(src/music_extractor.py lines 344-401). `none` models the `KeyError`
raised when a chosen format or thumbnail lacks a `url` key; the record's
`id` is the entry's `id` value, never checked for presence. -/
def extract_song_metadata (e : RawEntry) : Option SongRecord := do
  let audio ← audioStepE e
  let at' := splitArtistTitle e.title e.uploader
  let thumb ← thumbStepE e
  pure
    { id := e.id
      title := at'.2
      artist := some at'.1
      album := none
      duration := e.duration
      duration_string := format_duration e.duration
      thumbnail := thumb
      poster_image := thumb
      audio_url := audio
      webpage_url := e.webpage_url
      view_count := e.view_count
      like_count := e.like_count
      uploader := e.uploader
      upload_date := e.upload_date
      description := descStep e
      extractor := some (e.extractor.getD "youtube")
      availability := e.availability
      live_status := e.live_status
      source := none
      category := none }

/-- A search response from the extraction provider (`ydl.extract_info` on a
`ytsearchN:` query): the `entries` key may be absent, and individual
entries may be `None`. -/
structure SearchResult where
  entries : Option (List (Option RawEntry)) := none

/-- A playlist response from the extraction provider. -/
structure PlaylistResult where
  title : Option String := none
  id : Option String := none
  uploader : Option String := none
  description : Option String := none
  entries : Option (List (Option RawEntry)) := none

/-- The `songs` block of one country in a YTMusic charts response
(`country_data['songs']['playlist']`; a missing `playlist` key raises). -/
structure SongsBlock where
  playlist : Option (List YTItem) := none

/-- One country's data in a charts response. -/
structure CountryData where
  songs : Option SongsBlock := none

/-- A YTMusic `get_charts()` response: `countries` is an insertion-ordered
map (an absent key, a falsy response and a missing `countries` key all
collapse to `none`). -/
structure ChartsData where
  countries : Option (List (String × CountryData)) := none

/-- One section of a YTMusic `get_home()` response. -/
structure HomeSection where
  contents : Option (List YTItem) := none

/-- The dictionary returned by the homepage operation. -/
structure HomepageData where
  trending_music : List SongRecord
  categories : List String
  total_results : Nat
deriving Repr

/-- The dictionary returned by the playlist operation. -/
structure PlaylistInfo where
  title : String
  id : Option String
  uploader : Option String
  description : String
  entry_count : Nat
  songs : List SongRecord
deriving Repr

/-- A trending-playlist record (spec §3), used by the spec-modelled
trending operation. -/
structure TrendingPlaylist where
  title : String
  playlist_id : String
deriving DecidableEq, Repr

/-- The behaviour of the two upstream providers during one request, one
field per distinct call site/option set. `Except.error e` models a raised
exception with text `e` (`str(e)`). `ytmusicAvailable` is the cached
"structured-metadata client constructed successfully" flag
(`self.ytmusic` not `None`). -/
structure Env where
  ytmusicAvailable : Bool
  /-- `self.ytmusic.search(query, filter="songs", limit=n)`. -/
  ytSearch : String → Nat → Except Err (List YTItem)
  /-- `self.ytmusic.get_charts()`. -/
  ytCharts : Except Err ChartsData
  /-- `self.ytmusic.get_home()`. -/
  ytHome : Except Err (List HomeSection)
  /-- Structured-metadata playlist lookup (spec-modelled operation). -/
  ytGetPlaylist : String → Nat → Except Err (List YTItem)
  /-- Structured-metadata watch-next lookup (spec-modelled operation). -/
  ytWatchNext : String → Nat → Except Err (List YTItem)
  /-- `ydl.extract_info(searchQuery)` with the standard options. -/
  extractSearch : String → Except Err (Option SearchResult)
  /-- `ydl.extract_info(url)` with the standard options. -/
  extractUrl : String → Except Err RawEntry
  /-- `ydl.extract_info(url)` with the minimal (degraded) options of
  `_get_song_details_minimal`. -/
  extractMinimalUrl : String → Except Err RawEntry
  /-- `ydl.extract_info(url)` with the degraded options of
  `_get_audio_url_fallback` (worst quality, alternate user-agent). -/
  extractFallbackUrl : String → Except Err RawEntry
  /-- `ydl.extract_info(playlistUrl)` with `playlistend = n`. -/
  extractPlaylist : String → Nat → Except Err (Option PlaylistResult)

/-- The bot-detection-class test applied to a caught exception's text:
`"Sign in to confirm" in str(e) or "bot" in str(e).lower()`. -/
def isBotError (e : Err) : Bool :=
  pyContains e "Sign in to confirm" || pyContains (pyLower e) "bot"

/-- `f"https://www.youtube.com/watch?v={video_id}"`. -/
def watchUrl (v : String) : String := "https://www.youtube.com/watch?v=" ++ v

/-- `f"ytsearch{max_results}:{query}"`. -/
def ytsearchQuery (n : Nat) (q : String) : String :=
  "ytsearch" ++ toString n ++ ":" ++ q

/-- Map a fallible function over a list, failing wholesale on the first
failure — the behaviour of a Python `for` loop whose body may raise inside
a `try` block that discards partial results. -/
def mapOrNone {α β : Type} (f : α → Option β) : List α → Option (List β)
  | [] => some []
  | x :: xs =>
    match f x with
    | none => none
    | some y => (mapOrNone f xs).map (fun ys => y :: ys)

/-- `MusicExtractor._search_songs_fallback`
(src/music_extractor.py lines 115-136): a raise anywhere inside the `try`
(including from `extract_song_metadata` mid-loop) discards everything and
returns `[]`. -/
def search_songs_fallback (env : Env) (q : String) (m : Nat) : List (Option SongRecord) :=
  match env.extractSearch (ytsearchQuery m q) with
  | .error _ => []
  | .ok none => []
  | .ok (some sr) =>
    match sr.entries with
    | none => []
    | some es =>
      match mapOrNone extract_song_metadata (es.filterMap id) with
      | none => []
      | some songs => songs.map some

/-- `MusicExtractor.search_songs` (src/music_extractor.py lines 93-113).
The primary path appends every converted result, including `None` ones, so
the result is a list of optional records. -/
def search_songs (env : Env) (q : String) (m : Nat) : List (Option SongRecord) :=
  if env.ytmusicAvailable then
    match env.ytSearch q m with
    | .ok rs => rs.map convert_ytmusic_to_standard
    | .error _ => search_songs_fallback env q m
  else search_songs_fallback env q m

/-- The character class `[a-zA-Z0-9_-]` of the video-id regexes. -/
def isIdChar (c : Char) : Bool := c.isAlphanum || c = '_' || c = '-'

/-- Try to match one literal prefix followed by exactly 11 id characters at
the head of `l` (one regex alternative at one position). -/
def matchIdAt (pre : List Char) (l : List Char) : Option (List Char) :=
  if pfxB pre l then
    let idPart := (l.drop pre.length).take 11
    if idPart.length = 11 ∧ idPart.all isIdChar then some idPart else none
  else none

/-- `re.search` for one pattern `(?:pre₁|pre₂|...)([a-zA-Z0-9_-]{11})`:
scan positions left to right, trying the alternatives in order at each
position. -/
def scanForId (pres : List (List Char)) : List Char → Option (List Char)
  | [] => none
  | l@(_ :: rest) =>
    match pres.findSome? (fun p => matchIdAt p l) with
    | some r => some r
    | none => scanForId pres rest

/-- `MusicExtractor._extract_video_id_from_url`
(src/music_extractor.py lines 218-236): the three regex patterns are tried
in order, each searched over the whole URL. -/
def extract_video_id_from_url (url : String) : Option String :=
  let l := url.toList
  match scanForId ["youtube.com/watch?v=".toList, "youtu.be/".toList] l with
  | some r => some (String.mk r)
  | none =>
    match scanForId ["youtube.com/embed/".toList] l with
    | some r => some (String.mk r)
    | none => (scanForId ["youtube.com/v/".toList] l).map String.mk

/-- `MusicExtractor._get_song_details_minimal`
(src/music_extractor.py lines 238-276): degraded fetch with minimal
options; builds a basic record (no audio URL, no album) or returns `None`
when the extraction call raises. -/
def get_song_details_minimal (env : Env) (url : String) : Option SongRecord :=
  match env.extractMinimalUrl url with
  | .error _ => none
  | .ok info =>
    some
      { id := info.id
        title := info.title.getD "Unknown Title"
        artist := some (info.uploader.getD "Unknown Artist")
        album := none
        duration := info.duration
        duration_string := format_duration info.duration
        thumbnail := info.thumbnail
        poster_image := info.thumbnail
        audio_url := none
        webpage_url := info.webpage_url
        view_count := info.view_count
        like_count := info.like_count
        uploader := info.uploader
        upload_date := info.upload_date
        description := descStep info
        extractor := some (info.extractor.getD "youtube")
        availability := info.availability
        live_status := info.live_status
        source := some "yt-dlp-minimal"
        category := none }

/-- The yt-dlp fallback section of `get_song_details`
(src/music_extractor.py lines 205-216): direct extraction-provider fetch;
a raise is caught by the outer handler, which runs the minimal degraded
fetch only for bot-detection-class errors (a `KeyError` raised from
`extract_song_metadata` is not bot-class, so it yields `None`). -/
def song_details_fallback (env : Env) (url : String) : Option SongRecord :=
  match env.extractUrl url with
  | .ok info =>
    match extract_song_metadata info with
    | some r => some r
    | none => none
  | .error e => if isBotError e then get_song_details_minimal env url else none

/-- `MusicExtractor.get_song_details` (src/music_extractor.py lines
186-216): structured-metadata search by the extracted video id first,
returned only when the converted record's `id` equals that video id;
otherwise fall through to the extraction provider. -/
def get_song_details (env : Env) (url : String) : Option SongRecord :=
  let vid := extract_video_id_from_url url
  let primary : Option SongRecord :=
    match vid, env.ytmusicAvailable with
    | some v, true =>
      (match env.ytSearch v 1 with
       | .ok (r0 :: _) =>
         (match convert_ytmusic_to_standard r0 with
          | some si => if si.id = some v then some si else none
          | none => none)
       | _ => none)
    | _, _ => none
  match primary with
  | some r => some r
  | none => song_details_fallback env url

/-- `MusicExtractor._get_audio_url_fallback`
(src/music_extractor.py lines 310-342): degraded fetch; a direct `url`
key wins, otherwise the first format entry with a truthy `url` is used —
no audio-codec filtering and no quality ranking. -/
def get_audio_url_fallback (env : Env) (v : String) : Option String :=
  match env.extractFallbackUrl (watchUrl v) with
  | .error _ => none
  | .ok info =>
    match info.url with
    | some u => some u
    | none =>
      match info.formats with
      | none => none
      | some fs => (fs.find? (fun f => truthyStr f.url)).bind (fun f => f.url)

/-- `MusicExtractor.get_audio_url` (src/music_extractor.py lines 278-308),
instrumented with the number of degraded fallback attempts performed
(second component). On a raise, the degraded fallback runs exactly when
the error text is bot-detection-class; otherwise the result is `None`.
A `KeyError` from a chosen format without a `url` key is caught by the
same handler and is never bot-class, which coincides with
`selectBestAudioFormat` returning `none`. -/
def get_audio_url_traced (env : Env) (v : String) : Option String × Nat :=
  match env.extractUrl (watchUrl v) with
  | .ok info =>
    (match info.url with
     | some u => (some u, 0)
     | none =>
       match info.formats with
       | none => (none, 0)
       | some fs => (selectBestAudioFormat fs, 0))
  | .error e =>
    if isBotError e then (get_audio_url_fallback env v, 1) else (none, 0)

/-- `MusicExtractor.get_audio_url`: the returned audio URL. -/
def get_audio_url (env : Env) (v : String) : Option String :=
  (get_audio_url_traced env v).1

/-- `MusicExtractor.get_playlist_info` (src/music_extractor.py lines
421-450): extraction-provider playlist fetch; any raise (including from
`extract_song_metadata`) yields `None`. -/
def get_playlist_info (env : Env) (url : String) (m : Nat) : Option PlaylistInfo :=
  match env.extractPlaylist url m with
  | .error _ => none
  | .ok none => none
  | .ok (some pr) =>
    match pr.entries with
    | none => none
    | some es =>
      match mapOrNone extract_song_metadata (es.filterMap id) with
      | none => none
      | some songs =>
        some
          { title := pr.title.getD "Unknown Playlist"
            id := pr.id
            uploader := pr.uploader
            description := pr.description.getD ""
            entry_count := songs.length
            songs := songs }

/-- Attach a `category` tag to a record (`record['category'] = c`). -/
def setCategory (c : String) (r : SongRecord) : SongRecord := { r with category := some c }

/-- The charts phase of `get_youtube_homepage_data`
(src/music_extractor.py lines 467-481): US country (or the first one),
`songs.playlist` items, at most `max_results // 2` of them; any raise
inside this phase is caught with nothing appended. -/
def homePhase1 (env : Env) (m : Nat) : List SongRecord :=
  match env.ytCharts with
  | .error _ => []
  | .ok ch =>
    match ch.countries with
    | none => []
    | some cs =>
      match (List.lookup "US" cs).orElse (fun _ => cs.head?.map Prod.snd) with
      | none => []
      | some cd =>
        match cd.songs with
        | none => []
        | some sb =>
          match sb.playlist with
          | none => []
          | some songs =>
            (songs.take (m / 2)).filterMap
              (fun s => (convert_ytmusic_to_standard s).map (setCategory "trending"))

/-- The inner item loop of the home-feed phase: items with a truthy
`videoId` are converted and appended, breaking once the accumulated list
reaches `m`. -/
def homeInner (m : Nat) : List YTItem → List SongRecord → List SongRecord
  | [], acc => acc
  | it :: rest, acc =>
    if truthyStr it.videoId then
      match convert_ytmusic_to_standard it with
      | some c =>
        let acc' := acc ++ [setCategory "new_releases" c]
        if m ≤ acc'.length then acc' else homeInner m rest acc'
      | none => homeInner m rest acc
    else homeInner m rest acc

/-- The section loop of the home-feed phase: each section contributes at
most `r3 = remaining // 3` items, with a break once `m` records are
accumulated. -/
def homeSections (m r3 : Nat) : List HomeSection → List SongRecord → List SongRecord
  | [], acc => acc
  | sec :: rest, acc =>
    let acc' :=
      match sec.contents with
      | none => acc
      | some items => homeInner m (items.take r3) acc
    if m ≤ acc'.length then acc' else homeSections m r3 rest acc'

/-- The home-feed phase of `get_youtube_homepage_data`
(src/music_extractor.py lines 483-502): first 3 sections of `get_home()`;
`remaining` is fixed before the loop. -/
def homePhase2 (env : Env) (m : Nat) (acc : List SongRecord) : List SongRecord :=
  match env.ytHome with
  | .error _ => acc
  | .ok sections => homeSections m ((m - acc.length) / 3) (sections.take 3) acc

/-- The popularity-search phase of `get_youtube_homepage_data`
(src/music_extractor.py lines 504-515): appends every converted result of
a `"popular songs 2024"` search with limit `remaining`, without a break. -/
def homePhase3 (env : Env) (m : Nat) (acc : List SongRecord) : List SongRecord :=
  match env.ytSearch "popular songs 2024" (m - acc.length) with
  | .error _ => acc
  | .ok rs => acc ++ rs.filterMap (fun s => (convert_ytmusic_to_standard s).map (setCategory "popular"))

/-- The de-duplication loop of `_get_homepage_data_fallback`
(src/music_extractor.py lines 556-562): keep a record when its `id` has
not been seen. -/
def dedupAux (seen : List (Option String)) : List SongRecord → List SongRecord
  | [] => []
  | v :: rest =>
    if v.id ∈ seen then dedupAux seen rest
    else v :: dedupAux (v.id :: seen) rest

/-- De-duplication of a list of records by `id`, first occurrence wins. -/
def dedupById (l : List SongRecord) : List SongRecord := dedupAux [] l

/-- The fixed search terms of the homepage fallback
(src/music_extractor.py lines 528-533). -/
def popular_searches : List String :=
  ["trending music 2024", "popular songs", "top hits", "music charts"]

/-- The per-term entry loop of `_get_homepage_data_fallback`: truthy
entries are extracted and appended while fewer than `m` records have been
collected; a raise from `extract_song_metadata` aborts the current term
but keeps what was already appended. -/
def fallbackTermEntries (m : Nat) (cat : String) :
    List (Option RawEntry) → List SongRecord → List SongRecord
  | [], acc => acc
  | e? :: rest, acc =>
    match e? with
    | none => fallbackTermEntries m cat rest acc
    | some e =>
      if acc.length < m then
        match extract_song_metadata e with
        | none => acc
        | some v => fallbackTermEntries m cat rest (acc ++ [setCategory cat v])
      else fallbackTermEntries m cat rest acc

/-- The collection loop of `_get_homepage_data_fallback`
(src/music_extractor.py lines 535-554): one `ytsearch` per fixed term with
`max_results // 4` requested results each, errors per term skipped. -/
def fallbackCollectGo (env : Env) (m : Nat) : List String → List SongRecord → List SongRecord
  | [], acc => acc
  | term :: ts, acc =>
    fallbackCollectGo env m ts
      (match env.extractSearch (ytsearchQuery (m / popular_searches.length) term) with
       | .error _ => acc
       | .ok none => acc
       | .ok (some sr) =>
         match sr.entries with
         | none => acc
         | some es => fallbackTermEntries m (pyReplace term " " "_") es acc)

/-- All records collected by the homepage fallback, in merge order. -/
def fallbackCollect (env : Env) (m : Nat) : List SongRecord :=
  fallbackCollectGo env m popular_searches []

/-- `MusicExtractor._get_homepage_data_fallback`
(src/music_extractor.py lines 524-573): collect, de-duplicate by id,
truncate to `max_results`. -/
def get_homepage_data_fallback (env : Env) (m : Nat) : Option HomepageData :=
  let unique := dedupById (fallbackCollect env m)
  some
    { trending_music := unique.take m
      categories := ["trending", "popular", "top_hits", "music_charts"]
      total_results := unique.length }

/-- `MusicExtractor.get_youtube_homepage_data`
(src/music_extractor.py lines 452-522): charts, then home-feed sections,
then a popularity search, each phase entered only while fewer than
`max_results` records are collected. The merged primary list is NOT
de-duplicated. -/
def get_youtube_homepage_data (env : Env) (m : Nat) : Option HomepageData :=
  if env.ytmusicAvailable then
    let a1 := homePhase1 env m
    let a2 := if a1.length < m then homePhase2 env m a1 else a1
    let a3 := if a2.length < m then homePhase3 env m a2 else a2
    some
      { trending_music := a3
        categories := ["trending", "charts", "new_releases"]
        total_results := a3.length }
  else get_homepage_data_fallback env m

/-- The primary category→query table of `get_category_videos`
(src/music_extractor.py lines 583-594). -/
def category_queries : List (String × String) :=
  [("music", "music"), ("pop", "pop music"), ("rock", "rock music"),
   ("hip_hop", "hip hop"), ("electronic", "electronic music"),
   ("indie", "indie music"), ("classical", "classical music"),
   ("jazz", "jazz music"), ("country", "country music"), ("r&b", "r&b music")]

/-- The fallback category→query table of `_get_category_videos_fallback`
(src/music_extractor.py lines 617-628). -/
def category_queries_fallback : List (String × String) :=
  [("music", "latest music videos"), ("pop", "pop music hits"),
   ("rock", "rock music songs"), ("hip_hop", "hip hop rap music"),
   ("electronic", "electronic dance music"), ("indie", "indie alternative music"),
   ("classical", "classical music"), ("jazz", "jazz music"),
   ("country", "country music"), ("r&b", "r&b soul music")]

/-- `MusicExtractor._get_category_videos_fallback`
(src/music_extractor.py lines 614-650): extraction-provider search; a
raise anywhere yields `[]`. -/
def get_category_videos_fallback (env : Env) (category : String) (m : Nat) : List SongRecord :=
  let query := (List.lookup (pyLower category) category_queries_fallback).getD (category ++ " music")
  match env.extractSearch (ytsearchQuery m query) with
  | .error _ => []
  | .ok none => []
  | .ok (some sr) =>
    match sr.entries with
    | none => []
    | some es =>
      match mapOrNone extract_song_metadata (es.filterMap id) with
      | none => []
      | some vs => vs.map (setCategory category)

/-- `MusicExtractor.get_category_videos`
(src/music_extractor.py lines 575-612): structured-metadata search via the
category table, falling back to the extraction provider on error or when
the structured client is unavailable. Converted `None` records are
skipped. -/
def get_category_videos (env : Env) (category : String) (m : Nat) : List SongRecord :=
  if env.ytmusicAvailable then
    let query := (List.lookup (pyLower category) category_queries).getD (category ++ " music")
    match env.ytSearch query m with
    | .ok rs => rs.filterMap (fun r => (convert_ytmusic_to_standard r).map (setCategory category))
    | .error _ => get_category_videos_fallback env category m
  else get_category_videos_fallback env category m

/-- A home-feed item viewed as a playlist-shaped entry (spec §3
Trending-Playlist Record): items with a playlist id qualify. -/
def toTrendingPlaylist (it : YTItem) : Option TrendingPlaylist :=
  it.playlistId.map (fun pid => { title := it.title.getD "", playlist_id := pid })

/-- The fixed popularity-signal query terms of the spec-modelled trending
secondary path (spec §4.5). -/
def trending_search_terms : List String :=
  ["trending music", "popular songs", "top hits", "music charts"]

/-- Modelled from the spec: the secondary path of `get_trending_by_country`
(the method is called from `src/app.py` but missing from `src/`):
"structured-metadata search over a fixed list of popularity-signal query
terms, until limit satisfied or terms exhausted" (spec §4.5). -/
def trendingGo (env : Env) (m : Nat) : List String → List TrendingPlaylist → List TrendingPlaylist
  | [], acc => acc
  | term :: ts, acc =>
    if m ≤ acc.length then acc
    else
      match env.ytSearch term (m - acc.length) with
      | .ok rs => trendingGo env m ts (acc ++ rs.filterMap toTrendingPlaylist)
      | .error _ => trendingGo env m ts acc

/-- The trending secondary path: searches term by term until the limit is
reached or the terms are exhausted, then truncates to the limit. -/
def trending_secondary (env : Env) (m : Nat) : List TrendingPlaylist :=
  (trendingGo env m trending_search_terms []).take m

/-- Modelled from the spec: `get_trending_by_country`, which `src/app.py`
calls but which is missing from `src/music_extractor.py`. Per spec §4.5:
primary = structured-metadata home-feed scan filtered to playlist-shaped
items; secondary = popularity-term searches; all-fail → empty sequence,
never a raise. -/
def get_trending_by_country (env : Env) (_code : String) (m : Nat) : List TrendingPlaylist :=
  match env.ytHome with
  | .ok sections =>
    (((sections.filterMap (fun s => s.contents)).flatten).filterMap toTrendingPlaylist).take m
  | .error _ => trending_secondary env m

/-- Modelled from the spec: `get_recommended_songs`, which `src/app.py`
calls but which is missing from `src/music_extractor.py`. Per spec §4.5:
primary = structured-metadata watch-next lookup; "none — failure is
terminal for this operation"; all-fail → empty sequence, never a raise. -/
def get_recommended_songs (env : Env) (vid : String) (m : Nat) : List SongRecord :=
  match env.ytWatchNext vid m with
  | .error _ => []
  | .ok items => items.filterMap convert_ytmusic_to_standard

/-- Modelled from the spec: `get_ytmusic_playlist`, which `src/app.py`
calls but which is missing from `src/music_extractor.py`. Per spec §4.5:
primary = structured-metadata playlist lookup; secondary =
extraction-provider playlist fetch (`get_playlist_info`, which is in
`src/`); all-fail → no result, never a raise. -/
def get_ytmusic_playlist (env : Env) (pid : String) (m : Nat) : Option PlaylistInfo :=
  match env.ytGetPlaylist pid m with
  | .ok tracks =>
    let songs := tracks.filterMap convert_ytmusic_to_standard
    some
      { title := "Playlist"
        id := some pid
        uploader := none
        description := ""
        entry_count := songs.length
        songs := songs }
  | .error _ => get_playlist_info env pid m

/-- An upstream call outcome is a raised exception. -/
def failed {α : Type} : Except Err α → Prop
  | .error _ => True
  | .ok _ => False

/-- Every upstream provider call of the environment raises. -/
def allFail (env : Env) : Prop :=
  (∀ q n, failed (env.ytSearch q n)) ∧
  failed env.ytCharts ∧
  failed env.ytHome ∧
  (∀ p n, failed (env.ytGetPlaylist p n)) ∧
  (∀ v n, failed (env.ytWatchNext v n)) ∧
  (∀ s, failed (env.extractSearch s)) ∧
  (∀ u, failed (env.extractUrl u)) ∧
  (∀ u, failed (env.extractMinimalUrl u)) ∧
  (∀ u, failed (env.extractFallbackUrl u)) ∧
  (∀ u n, failed (env.extractPlaylist u n))

/-- An environment in which every upstream call raises. -/
def envAllFail : Env :=
  { ytmusicAvailable := true
    ytSearch := fun _ _ => .error "HTTP 500"
    ytCharts := .error "HTTP 500"
    ytHome := .error "HTTP 500"
    ytGetPlaylist := fun _ _ => .error "HTTP 500"
    ytWatchNext := fun _ _ => .error "HTTP 500"
    extractSearch := fun _ => .error "HTTP 500"
    extractUrl := fun _ => .error "HTTP 500"
    extractMinimalUrl := fun _ => .error "HTTP 500"
    extractFallbackUrl := fun _ => .error "HTTP 500"
    extractPlaylist := fun _ _ => .error "HTTP 500" }

/-- A structured-metadata entry that occurs twice in the charts playlist. -/
def dupItem : YTItem := { videoId := some "dup", title := some "Same Song" }

/-- An environment in which the charts call returns a playlist with a
duplicated entry and everything else fails. -/
def envDupCharts : Env :=
  { ytmusicAvailable := true
    ytSearch := fun _ _ => .error "down"
    ytCharts := .ok
      ⟨some [("US", ⟨some ⟨some [dupItem, dupItem]⟩⟩)]⟩
    ytHome := .error "down"
    ytGetPlaylist := fun _ _ => .error "down"
    ytWatchNext := fun _ _ => .error "down"
    extractSearch := fun _ => .error "down"
    extractUrl := fun _ => .error "down"
    extractMinimalUrl := fun _ => .error "down"
    extractFallbackUrl := fun _ => .error "down"
    extractPlaylist := fun _ _ => .error "down" }

/-- A benign structured-metadata search result entry. -/
def benignItem : YTItem := { videoId := some "vid00000001", title := some "T" }

/-- An environment whose structured-metadata search ignores its limit
argument and always returns 3 items. -/
def envOverLimit : Env :=
  { envAllFail with
    ytmusicAvailable := true
    ytSearch := fun _ _ => .ok [benignItem, benignItem, benignItem] }

/-- Every provider call of the environment honours its requested limit:
it never returns more items than asked for. -/
def respectsLimits (env : Env) : Prop :=
  (∀ q n rs, env.ytSearch q n = .ok rs → rs.length ≤ n) ∧
  (∀ n q sr es, env.extractSearch (ytsearchQuery n q) = .ok (some sr) →
    sr.entries = some es → es.length ≤ n) ∧
  (∀ u n pr es, env.extractPlaylist u n = .ok (some pr) →
    pr.entries = some es → es.length ≤ n) ∧
  (∀ p n ts, env.ytGetPlaylist p n = .ok ts → ts.length ≤ n)

/-- An environment whose structured-metadata search honours its limit and
whose other calls fail (vacuously honouring theirs). -/
def envWithinLimits : Env :=
  { envAllFail with
    ytmusicAvailable := true
    ytSearch := fun _ n => .ok (List.replicate (min n 3) benignItem) }

/-- An environment raising a bot-detection challenge on the standard
extraction path, with a working degraded path. -/
def envBot : Env :=
  { envAllFail with
    extractUrl := fun _ => .error "Sign in to confirm you are not a bot"
    extractFallbackUrl := fun _ => .ok { url := some "http://degraded/audio" } }

/-- An environment raising a non-bot-class error on the standard extraction
path. -/
def envPlainError : Env :=
  { envBot with extractUrl := fun _ => .error "HTTP Error 404: Not Found" }

/-- The artist/title heuristic exactly as the claim words it (no whitespace
stripping of the split parts): split once on the first `" - "` with left
part → artist and right part → title; else, when the lowercase title
contains `" by "` exactly once, split and title-case both parts; else the
uploader/raw-title defaults. -/
def claimSplitArtistTitle (rawTitle uploader : Option String) : String × String :=
  let title := rawTitle.getD "Unknown Title"
  let artist := uploader.getD "Unknown Artist"
  if pyContains title " - " then
    match pySplitOnce title " - " with
    | some (l, r) => (l, r)
    | none => (artist, title)
  else if (pySplit (pyLower title) " by ").length = 2 then
    match pySplit (pyLower title) " by " with
    | [t, a] => (pyTitleCase a, pyTitleCase t)
    | _ => (artist, title)
  else (artist, title)

/-- The claim's description amended with the whitespace stripping the code
actually performs on every split part (stripping before title-casing in
the `" by "` branch). -/
def claimSplitArtistTitleStripped (rawTitle uploader : Option String) : String × String :=
  let title := rawTitle.getD "Unknown Title"
  let artist := uploader.getD "Unknown Artist"
  if pyContains title " - " then
    match pySplitOnce title " - " with
    | some (l, r) => (pyStrip l, pyStrip r)
    | none => (artist, title)
  else if (pySplit (pyLower title) " by ").length = 2 then
    match pySplit (pyLower title) " by " with
    | [t, a] => (pyTitleCase (pyStrip a), pyTitleCase (pyStrip t))
    | _ => (artist, title)
  else (artist, title)

/-- A structured-metadata search result matching the requested video id. -/
def goodItem : YTItem := { videoId := some "dQw4w9WgXcQ", title := some "Song" }

/-- A structured-metadata search result whose id differs from the
requested video id. -/
def mismatchItem : YTItem := { videoId := some "abcdefghijk", title := some "Song" }

def envNine : Env :=
  { envAllFail with ytmusicAvailable := true, ytSearch := fun _ _ => .ok [goodItem] }

def envNineB : Env :=
  { envAllFail with ytmusicAvailable := true, ytSearch := fun _ _ => .ok [mismatchItem] }

/-- The record the primary path produces for `goodItem`. -/
def nineRecord : SongRecord :=
  { id := some "dQw4w9WgXcQ"
    title := "Song"
    artist := some "Unknown Artist"
    album := none
    duration := .pnone
    duration_string := "Unknown"
    thumbnail := none
    poster_image := none
    audio_url := none
    webpage_url := some "https://www.youtube.com/watch?v=dQw4w9WgXcQ"
    view_count := none
    like_count := none
    uploader := some "Unknown Artist"
    upload_date := none
    description := ""
    extractor := some "ytmusic"
    availability := some "public"
    live_status := some "not_live"
    source := some "ytmusicapi"
    category := none }

/-- The record `mismatchItem` converts to. -/
def mismatchRecord : SongRecord := { nineRecord with
  id := some "abcdefghijk"
  webpage_url := some "https://www.youtube.com/watch?v=abcdefghijk" }

/-- The degraded-path extraction response used in the C10 theorem: no
direct url, a video-only first format and a better audio format after it. -/
def vfInfo : RawEntry :=
  { url := none
    formats := some
      [{ acodec := some "none", quality := some 1, url := some "http://video-only/stream" },
       { acodec := some "opus", quality := some 9, url := some "http://audio/stream" }] }

def envVideoFirst : Env :=
  { envAllFail with extractFallbackUrl := fun _ => .ok vfInfo }

lemma mapOrNone_length {α β : Type} (f : α → Option β) :
    ∀ (l : List α) (ys : List β), mapOrNone f l = some ys → ys.length = l.length := by
  intro l
  induction l with
  | nil => intro ys h; simp [mapOrNone] at h; simp [← h]
  | cons x xs ih =>
    intro ys h
    cases hf : f x with
    | none => simp [mapOrNone, hf] at h
    | some y =>
      simp only [mapOrNone, hf] at h
      cases hm : mapOrNone f xs with
      | none => rw [hm] at h; simp at h
      | some zs =>
        rw [hm] at h
        simp at h
        rw [← h]
        simp [ih zs hm]

lemma failed_ok {α : Type} {x : Except Err α} (h : failed x) : ∃ e, x = .error e := by
  cases x with
  | error e => exact ⟨e, rfl⟩
  | ok a => exact h.elim

lemma search_songs_fallback_allFail (env : Env) (h : ∀ s, failed (env.extractSearch s))
    (q : String) (m : Nat) : search_songs_fallback env q m = [] := by
  obtain ⟨e, he⟩ := failed_ok (h (ytsearchQuery m q))
  simp [search_songs_fallback, he]

lemma fallbackCollectGo_allFail (env : Env) (h : ∀ s, failed (env.extractSearch s))
    (m : Nat) (ts : List String) (acc : List SongRecord) :
    fallbackCollectGo env m ts acc = acc := by
  induction ts generalizing acc with
  | nil => rfl
  | cons t ts ih =>
    obtain ⟨e, he⟩ := failed_ok (h (ytsearchQuery (m / popular_searches.length) t))
    simp [fallbackCollectGo, he, ih]

lemma trendingGo_allFail (env : Env) (h : ∀ q n, failed (env.ytSearch q n))
    (m : Nat) (ts : List String) (acc : List TrendingPlaylist) :
    trendingGo env m ts acc = acc := by
  induction ts generalizing acc with
  | nil => rfl
  | cons t ts ih =>
    obtain ⟨e, he⟩ := failed_ok (h t (m - acc.length))
    simp [trendingGo, he, ih]

/-- C1: for every Gateway operation, when every upstream provider call
fails, the operation returns its defined "no result" value — `[]` for the
list operations (for Homepage, a wrapper holding an empty record list),
`none` for the single-item operations — and, being a total Lean function
whose result type carries no error component, never propagates an
exception past the operation boundary. The playlist/trending/recommended
operations missing from `src/` are the spec-modelled ones. -/
theorem allFail_noResult (env : Env) (h : allFail env) :
    (∀ q m, search_songs env q m = []) ∧
    (∀ url, get_song_details env url = none) ∧
    (∀ v, get_audio_url env v = none) ∧
    (∀ url m, get_playlist_info env url m = none) ∧
    (∀ p m, get_ytmusic_playlist env p m = none) ∧
    (∀ c m, get_trending_by_country env c m = []) ∧
    (∀ v m, get_recommended_songs env v m = []) ∧
    (∀ m, (get_youtube_homepage_data env m).map HomepageData.trending_music = some []) ∧
    (∀ c m, get_category_videos env c m = []) := by
  obtain ⟨hS, hC, hH, hGP, hWN, hES, hEU, hEM, hEF, hEP⟩ := h
  have hfb := search_songs_fallback_allFail env hES
  refine ⟨?_, ?_, ?_, ?_, ?_, ?_, ?_, ?_, ?_⟩
  · -- Search
    intro q m
    by_cases ha : env.ytmusicAvailable
    · obtain ⟨e, he⟩ := failed_ok (hS q m)
      simp [search_songs, ha, he, hfb]
    · simp [search_songs, ha, hfb]
  · -- SongDetails
    intro url
    have hmin : get_song_details_minimal env url = none := by
      obtain ⟨e, he⟩ := failed_ok (hEM url)
      simp [get_song_details_minimal, he]
    have hsdf : song_details_fallback env url = none := by
      obtain ⟨e, he⟩ := failed_ok (hEU url)
      simp only [song_details_fallback, he]
      split <;> simp [hmin]
    cases hv : extract_video_id_from_url url with
    | none => simp [get_song_details, hv, hsdf]
    | some v =>
      by_cases ha : env.ytmusicAvailable
      · obtain ⟨e, he⟩ := failed_ok (hS v 1)
        simp [get_song_details, hv, ha, he, hsdf]
      · simp [get_song_details, hv, ha, hsdf]
  · -- AudioURL
    intro v
    have hfa : get_audio_url_fallback env v = none := by
      obtain ⟨e, he⟩ := failed_ok (hEF (watchUrl v))
      simp [get_audio_url_fallback, he]
    obtain ⟨e, he⟩ := failed_ok (hEU (watchUrl v))
    simp only [get_audio_url, get_audio_url_traced, he]
    split <;> simp [hfa]
  · -- Playlist (extraction path, in src/)
    intro url m
    obtain ⟨e, he⟩ := failed_ok (hEP url m)
    simp [get_playlist_info, he]
  · -- Playlist (spec-modelled structured path)
    intro p m
    obtain ⟨e, he⟩ := failed_ok (hGP p m)
    obtain ⟨e2, he2⟩ := failed_ok (hEP p m)
    simp [get_ytmusic_playlist, he, get_playlist_info, he2]
  · -- TrendingByCountry (spec-modelled)
    intro c m
    obtain ⟨e, he⟩ := failed_ok hH
    simp [get_trending_by_country, he, trending_secondary, trendingGo_allFail env hS]
  · -- RecommendedFor (spec-modelled)
    intro v m
    obtain ⟨e, he⟩ := failed_ok (hWN v m)
    simp [get_recommended_songs, he]
  · -- Homepage
    intro m
    have h1 : homePhase1 env m = [] := by
      obtain ⟨e, he⟩ := failed_ok hC
      simp [homePhase1, he]
    have h2 : ∀ acc, homePhase2 env m acc = acc := by
      intro acc
      obtain ⟨e, he⟩ := failed_ok hH
      simp [homePhase2, he]
    have h3 : ∀ acc, homePhase3 env m acc = acc := by
      intro acc
      obtain ⟨e, he⟩ := failed_ok (hS "popular songs 2024" (m - acc.length))
      simp [homePhase3, he]
    by_cases ha : env.ytmusicAvailable
    · simp [get_youtube_homepage_data, ha, h1, h2, h3]
    · simp [get_youtube_homepage_data, ha, get_homepage_data_fallback,
        fallbackCollect, fallbackCollectGo_allFail env hES, dedupById, dedupAux]
  · -- CategoryVideos
    intro c m
    have hcf : get_category_videos_fallback env c m = [] := by
      obtain ⟨e, he⟩ :=
        failed_ok (hES (ytsearchQuery m ((List.lookup (pyLower c) category_queries_fallback).getD (c ++ " music"))))
      simp [get_category_videos_fallback, he]
    by_cases ha : env.ytmusicAvailable
    · obtain ⟨e, he⟩ :=
        failed_ok (hS ((List.lookup (pyLower c) category_queries).getD (c ++ " music")) m)
      simp [get_category_videos, ha, he, hcf]
    · simp [get_category_videos, ha, hcf]

lemma envAllFail_allFail : allFail envAllFail :=
  ⟨fun _ _ => trivial, trivial, trivial, fun _ _ => trivial, fun _ _ => trivial,
   fun _ => trivial, fun _ => trivial, fun _ => trivial, fun _ => trivial, fun _ _ => trivial⟩

/-- Witness for C1 at a concrete all-failing environment. -/
theorem allFail_noResult_witness :
    allFail envAllFail ∧
    search_songs envAllFail "imagine dragons" 5 = [] ∧
    get_song_details envAllFail "https://youtu.be/dQw4w9WgXcQ" = none ∧
    get_audio_url envAllFail "dQw4w9WgXcQ" = none ∧
    get_playlist_info envAllFail "https://www.youtube.com/playlist?list=PL0" 5 = none ∧
    get_ytmusic_playlist envAllFail "PL0" 5 = none ∧
    get_trending_by_country envAllFail "US" 5 = [] ∧
    get_recommended_songs envAllFail "dQw4w9WgXcQ" 5 = [] ∧
    (get_youtube_homepage_data envAllFail 5).map HomepageData.trending_music = some [] ∧
    get_category_videos envAllFail "pop" 5 = [] := by
  have h := allFail_noResult envAllFail envAllFail_allFail
  exact ⟨envAllFail_allFail, h.1 _ _, h.2.1 _, h.2.2.1 _, h.2.2.2.1 _ _, h.2.2.2.2.1 _ _,
    h.2.2.2.2.2.1 _ _, h.2.2.2.2.2.2.1 _ _, h.2.2.2.2.2.2.2.1 _, h.2.2.2.2.2.2.2.2 _ _⟩

/-- C2 counterexample: a structured-metadata entry without a `videoId` key
(and otherwise benign) is converted to a NON-null record whose `id` field
is null — the converter does not treat a missing identifying field as a
normalization failure. -/
theorem convert_missing_videoId_yields_record :
    (convert_ytmusic_to_standard ({} : YTItem)).map SongRecord.id = some none := by decide

/-- C2 (amended): each normalizer returns either `none` or a record whose
`id` equals the raw entry's identifying field verbatim — null when that
field is absent. A `none` result arises only from other malformed fields
(non-numeric truthy duration string, or a chosen thumbnail/format without
a `url` key), never specifically from a missing id. -/
theorem normalizers_id_passthrough :
    (∀ it : YTItem, convert_ytmusic_to_standard it = none ∨
      (convert_ytmusic_to_standard it).map SongRecord.id = some it.videoId) ∧
    (∀ e : RawEntry, extract_song_metadata e = none ∨
      (extract_song_metadata e).map SongRecord.id = some e.id) := by
  constructor
  · intro it
    cases hd : ytDurationStep it.duration_seconds with
    | none => exact Or.inl (by simp [convert_ytmusic_to_standard, hd])
    | some d =>
      cases ht : ytThumbStep it.thumbnails with
      | none => exact Or.inl (by simp [convert_ytmusic_to_standard, hd, ht])
      | some t => exact Or.inr (by simp [convert_ytmusic_to_standard, hd, ht])
  · intro e
    cases ha : audioStepE e with
    | none => exact Or.inl (by simp [extract_song_metadata, ha])
    | some a =>
      cases ht : thumbStepE e with
      | none => exact Or.inl (by simp [extract_song_metadata, ha, ht])
      | some t => exact Or.inr (by simp [extract_song_metadata, ha, ht])

/-- C3 counterexample: a negative duration is NOT mapped to `"Unknown"`;
Python floor division turns `-5` seconds into `"59:55"`. -/
theorem format_duration_negative_not_unknown :
    format_duration (.pint (-5)) = "59:55" ∧ ("59:55" : String) ≠ "Unknown" := by decide

/-- C3 (amended): `format_duration` returns `"Unknown"` for null, zero and
non-numeric input and never raises (it is total); for every POSITIVE
number of seconds it computes `h = seconds / 3600`,
`m = (seconds % 3600) / 60`, `s = seconds % 60` and formats zero-padded
`HH:MM:SS` when `h > 0` and `MM:SS` otherwise; the claimed examples hold.
Negative inputs are excluded: they follow the same floor-division formula
instead of mapping to `"Unknown"`. -/
theorem format_duration_spec :
    format_duration .pnone = "Unknown" ∧
    format_duration (.pint 0) = "Unknown" ∧
    (∀ s : String, pyParseInt s = none → format_duration (.pstr s) = "Unknown") ∧
    (∀ n : Int, 0 < n →
      format_duration (.pint n) =
        (if n / 3600 > 0
         then pad2 (n / 3600) ++ ":" ++ pad2 (n % 3600 / 60) ++ ":" ++ pad2 (n % 60)
         else pad2 (n % 3600 / 60) ++ ":" ++ pad2 (n % 60))) ∧
    format_duration (.pint 65) = "01:05" ∧
    format_duration (.pint 3725) = "01:02:05" := by
  refine ⟨by decide, by decide, ?_, ?_, by decide, by decide⟩
  · intro s hs
    by_cases h : (PyNum.pstr s).truthy
    · simp [format_duration, h, PyNum.toInt, hs]
    · simp [format_duration, h]
  · intro n hn
    have hne : n ≠ 0 := by omega
    have htr : (PyNum.pint n).truthy := by simp [PyNum.truthy, hne]
    have hd1 : Int.fdiv n 3600 = n / 3600 := Int.fdiv_eq_ediv n (by norm_num)
    have hm1 : Int.fmod n 3600 = n % 3600 := Int.fmod_eq_emod n (by norm_num)
    have hd2 : Int.fdiv (n % 3600) 60 = n % 3600 / 60 := Int.fdiv_eq_ediv _ (by norm_num)
    have hm2 : Int.fmod n 60 = n % 60 := Int.fmod_eq_emod n (by norm_num)
    simp [format_duration, htr, PyNum.toInt, hd1, hm1, hd2, hm2]

/-- Witness for C3 (amended) at concrete inputs discharging its
hypotheses. -/
theorem format_duration_spec_witness :
    format_duration (.pstr "4in33") = "Unknown" ∧ format_duration (.pint 3725) = "01:02:05" := by
  have h := format_duration_spec
  refine ⟨h.2.2.1 "4in33" (by decide), ?_⟩
  have h4 := h.2.2.2.1 3725 (by decide)
  simpa using h4

lemma dedupAux_sublist (seen : List (Option String)) (l : List SongRecord) :
    (dedupAux seen l).Sublist l := by
  induction l generalizing seen with
  | nil => simp [dedupAux]
  | cons x rest ih =>
    by_cases h : x.id ∈ seen
    · simp only [dedupAux, if_pos h]
      exact (ih seen).cons x
    · simp only [dedupAux, if_neg h]
      exact (ih (x.id :: seen)).cons₂ x

lemma dedupAux_filter (seen : List (Option String)) (l : List SongRecord) (v : Option String) :
    (dedupAux seen l).filter (fun r => r.id == v) =
      if v ∈ seen then [] else (l.filter (fun r => r.id == v)).take 1 := by
  induction l generalizing seen with
  | nil => by_cases hv : v ∈ seen <;> simp [dedupAux, hv]
  | cons x rest ih =>
    by_cases hx : x.id ∈ seen
    · rw [dedupAux, if_pos hx, ih]
      by_cases hv : v ∈ seen
      · rw [if_pos hv, if_pos hv]
      · have hne : (x.id == v) = false := by
          refine beq_eq_false_iff_ne.mpr (fun hEq => hv (hEq ▸ hx))
        rw [if_neg hv, if_neg hv, List.filter_cons, hne]
        simp
    · rw [dedupAux, if_neg hx]
      by_cases hxv : x.id = v
      · subst hxv
        have h1 : (x.id == x.id) = true := beq_self_eq_true x.id
        rw [List.filter_cons, h1, ih]
        simp only [List.mem_cons, true_or, if_true, if_neg hx, List.filter_cons, h1]
        rfl
      · have hne : (x.id == v) = false := beq_eq_false_iff_ne.mpr hxv
        rw [List.filter_cons, hne, ih]
        by_cases hv : v ∈ seen
        · have hv2 : v ∈ x.id :: seen := List.mem_cons_of_mem _ hv
          rw [if_pos hv2, if_pos hv]
          simp
        · have hv2 : v ∉ x.id :: seen := by
            intro hm
            rcases List.mem_cons.mp hm with h | h
            · exact hxv h.symm
            · exact hv h
          rw [if_neg hv2, if_neg hv, List.filter_cons, hne]
          simp

/-- C4 counterexample: the structured-metadata PRIMARY homepage path does
NOT de-duplicate — a charts playlist containing the same video twice yields
an output containing two records with the same id. -/
theorem homepage_primary_keeps_duplicates :
    ((get_youtube_homepage_data envDupCharts 5).elim [] HomepageData.trending_music).map
        SongRecord.id = [some "dup", some "dup"] := by decide

/-- C4 (amended): de-duplication by id happens only on the extraction
FALLBACK homepage path, where it is applied to the merged sequence before
truncation to the limit: the result is a sublist of the merged sequence
(relative order preserved) whose records with any given id are exactly the
first occurrence of that id in the merged sequence. The structured-metadata
primary path merges charts, home-feed sections and the popularity search
without de-duplicating. -/
theorem homepage_dedup_on_fallback_only :
    (∀ l : List SongRecord, (dedupById l).Sublist l) ∧
    (∀ (l : List SongRecord) (v : Option String),
      (dedupById l).filter (fun r => r.id == v) = (l.filter (fun r => r.id == v)).take 1) ∧
    (∀ (env : Env) (m : Nat),
      (get_homepage_data_fallback env m).map HomepageData.trending_music =
        some ((dedupById (fallbackCollect env m)).take m)) := by
  refine ⟨fun l => dedupAux_sublist [] l, fun l v => ?_, fun env m => rfl⟩
  have h := dedupAux_filter [] l v
  simpa [dedupById] using h

/-- C5 counterexample: no list operation truncates on the gateway side —
when the provider call returns N = 3 ≥ L = 2 items, Search returns all 3,
violating the "at most L items" claim. -/
theorem search_exceeds_limit :
    ¬ (search_songs envOverLimit "imagine dragons" 2).length ≤ 2 := by decide

lemma homeInner_le (m : Nat) :
    ∀ (items : List YTItem) (acc : List SongRecord),
      acc.length < m → (homeInner m items acc).length ≤ m := by
  intro items
  induction items with
  | nil => intro acc h; simpa [homeInner] using Nat.le_of_lt h
  | cons it rest ih =>
    intro acc h
    simp only [homeInner]
    by_cases hv : truthyStr it.videoId
    · simp only [hv, if_true]
      cases hc : convert_ytmusic_to_standard it with
      | none => exact ih acc h
      | some c =>
        simp only []
        by_cases hb : m ≤ (acc ++ [setCategory "new_releases" c]).length
        · simp only [if_pos hb]
          simp only [List.length_append, List.length_cons, List.length_nil]
          omega
        · simp only [if_neg hb]
          exact ih _ (by omega)
    · simp only [hv, if_false]
      exact ih acc h

lemma homeSections_le (m r3 : Nat) :
    ∀ (secs : List HomeSection) (acc : List SongRecord),
      acc.length < m → (homeSections m r3 secs acc).length ≤ m := by
  intro secs
  induction secs with
  | nil => intro acc h; simpa [homeSections] using Nat.le_of_lt h
  | cons sec rest ih =>
    intro acc h
    simp only [homeSections]
    have hacc' : ∀ acc' : List SongRecord,
        acc'.length ≤ m →
        (if m ≤ acc'.length then acc' else homeSections m r3 rest acc').length ≤ m := by
      intro acc' h'
      by_cases hb : m ≤ acc'.length
      · simpa [hb] using h'
      · simp only [if_neg hb]
        exact ih acc' (by omega)
    cases hc : sec.contents with
    | none => exact hacc' acc (Nat.le_of_lt h)
    | some items => exact hacc' _ (homeInner_le m (items.take r3) acc h)

/-- C5 (amended): provided every upstream provider call honours its
requested limit (returns no more items than asked), each list operation
returns at most `L` items for every limit `L`. Without that proviso the
gateway itself never truncates (see the counterexample), except on the
homepage paths, which bound their output themselves. -/
theorem list_ops_respect_limit (env : Env) (h : respectsLimits env) :
    (∀ q m, (search_songs env q m).length ≤ m) ∧
    (∀ c m, (get_category_videos env c m).length ≤ m) ∧
    (∀ m, (get_youtube_homepage_data env m).elim 0
      (fun d => d.trending_music.length) ≤ m) ∧
    (∀ url m, (get_playlist_info env url m).elim 0 (fun p => p.songs.length) ≤ m) ∧
    (∀ p m, (get_ytmusic_playlist env p m).elim 0 (fun p => p.songs.length) ≤ m) ∧
    (∀ c m, (get_trending_by_country env c m).length ≤ m) := by
  obtain ⟨hS, hES, hEP, hGP⟩ := h
  have hsf : ∀ q m, (search_songs_fallback env q m).length ≤ m := by
    intro q m
    unfold search_songs_fallback
    cases hx : env.extractSearch (ytsearchQuery m q) with
    | error e => simp
    | ok osr =>
      cases osr with
      | none => simp
      | some sr =>
        cases hen : sr.entries with
        | none => simp [hen]
        | some es =>
          cases hmap : mapOrNone extract_song_metadata (es.filterMap id) with
          | none => simp [hen, hmap]
          | some songs =>
            simp only [hen, hmap, List.length_map]
            have h1 := mapOrNone_length _ _ _ hmap
            have h2 : (es.filterMap id).length ≤ es.length := List.length_filterMap_le _ _
            have h3 := hES m q sr es hx hen
            omega
  have hpl : ∀ url m, (get_playlist_info env url m).elim 0 (fun p => p.songs.length) ≤ m := by
    intro url m
    unfold get_playlist_info
    cases hx : env.extractPlaylist url m with
    | error e => simp
    | ok opr =>
      cases opr with
      | none => simp
      | some pr =>
        cases hen : pr.entries with
        | none => simp [hen]
        | some es =>
          cases hmap : mapOrNone extract_song_metadata (es.filterMap id) with
          | none => simp [hen, hmap]
          | some songs =>
            simp only [hen, hmap, Option.elim_some]
            have h1 := mapOrNone_length _ _ _ hmap
            have h2 : (es.filterMap id).length ≤ es.length := List.length_filterMap_le _ _
            have h3 := hEP url m pr es hx hen
            omega
  have hcf : ∀ c m, (get_category_videos_fallback env c m).length ≤ m := by
    intro c m
    simp only [get_category_videos_fallback]
    cases hx : env.extractSearch
        (ytsearchQuery m ((List.lookup (pyLower c) category_queries_fallback).getD (c ++ " music"))) with
    | error e => simp
    | ok osr =>
      cases osr with
      | none => simp
      | some sr =>
        cases hen : sr.entries with
        | none => simp [hen]
        | some es =>
          cases hmap : mapOrNone extract_song_metadata (es.filterMap id) with
          | none => simp [hen, hmap]
          | some vs =>
            simp only [hen, hmap, List.length_map]
            have h1 := mapOrNone_length _ _ _ hmap
            have h2 : (es.filterMap id).length ≤ es.length := List.length_filterMap_le _ _
            have h3 := hES m _ sr es hx hen
            omega
  refine ⟨?_, ?_, ?_, hpl, ?_, ?_⟩
  · -- Search
    intro q m
    unfold search_songs
    by_cases ha : env.ytmusicAvailable
    · simp only [ha, if_true]
      cases hx : env.ytSearch q m with
      | error e => exact hsf q m
      | ok rs => simpa using hS q m rs hx
    · simp only [ha, if_false]
      exact hsf q m
  · -- CategoryVideos
    intro c m
    simp only [get_category_videos]
    by_cases ha : env.ytmusicAvailable
    · simp only [ha, if_true]
      cases hx : env.ytSearch ((List.lookup (pyLower c) category_queries).getD (c ++ " music")) m with
      | error e => exact hcf c m
      | ok rs => exact le_trans (List.length_filterMap_le _ _) (hS _ m rs hx)
    · simp only [ha, if_false]
      exact hcf c m
  · -- Homepage
    intro m
    have h1 : (homePhase1 env m).length ≤ m := by
      have hm2 : m / 2 ≤ m := Nat.div_le_self m 2
      unfold homePhase1
      split
      · simp
      · split
        · simp
        · split
          · simp
          · split
            · simp
            · split
              · simp
              · exact le_trans (le_trans (List.length_filterMap_le _ _)
                  (List.length_take_le _ _)) hm2
    have h2 : ∀ acc : List SongRecord, acc.length < m → (homePhase2 env m acc).length ≤ m := by
      intro acc hacc
      unfold homePhase2
      split
      · exact Nat.le_of_lt hacc
      · exact homeSections_le m _ _ acc hacc
    have h3 : ∀ acc : List SongRecord, acc.length < m → (homePhase3 env m acc).length ≤ m := by
      intro acc hacc
      unfold homePhase3
      cases hx : env.ytSearch "popular songs 2024" (m - acc.length) with
      | error e => exact Nat.le_of_lt hacc
      | ok rs =>
        show (acc ++ rs.filterMap (fun s => (convert_ytmusic_to_standard s).map
          (setCategory "popular"))).length ≤ m
        have hb := List.length_filterMap_le
          (fun s => (convert_ytmusic_to_standard s).map (setCategory "popular")) rs
        have hc := hS _ _ rs hx
        simp only [List.length_append]
        omega
    have hA2 : (if (homePhase1 env m).length < m then homePhase2 env m (homePhase1 env m)
        else homePhase1 env m).length ≤ m := by
      by_cases hc : (homePhase1 env m).length < m
      · simpa [hc] using h2 _ hc
      · simpa [hc] using h1
    by_cases ha : env.ytmusicAvailable
    · have hA3 : (if (if (homePhase1 env m).length < m then homePhase2 env m (homePhase1 env m)
          else homePhase1 env m).length < m then
            homePhase3 env m (if (homePhase1 env m).length < m
              then homePhase2 env m (homePhase1 env m) else homePhase1 env m)
          else (if (homePhase1 env m).length < m then homePhase2 env m (homePhase1 env m)
            else homePhase1 env m)).length ≤ m := by
        by_cases hc : (if (homePhase1 env m).length < m then homePhase2 env m (homePhase1 env m)
            else homePhase1 env m).length < m
        · simpa [hc] using h3 _ hc
        · simpa [hc] using hA2
      unfold get_youtube_homepage_data
      simp only [ha, if_true]
      exact hA3
    · unfold get_youtube_homepage_data
      simp only [ha, if_false]
      exact List.length_take_le _ _
  · -- Playlist (spec-modelled structured path)
    intro p m
    unfold get_ytmusic_playlist
    cases hx : env.ytGetPlaylist p m with
    | error e => exact hpl p m
    | ok ts =>
      simp only [Option.elim_some]
      have h1 := hGP p m ts hx
      have h2 : (ts.filterMap convert_ytmusic_to_standard).length ≤ ts.length :=
        List.length_filterMap_le _ _
      omega
  · -- TrendingByCountry (spec-modelled)
    intro c m
    unfold get_trending_by_country
    cases env.ytHome with
    | error e => exact List.length_take_le _ _
    | ok sections => exact List.length_take_le _ _

/-- Witness for C5 (amended) at a concrete limit-honouring environment. -/
theorem list_ops_respect_limit_witness :
    respectsLimits envWithinLimits ∧
    (search_songs envWithinLimits "imagine dragons" 2).length ≤ 2 ∧
    (get_category_videos envWithinLimits "pop" 2).length ≤ 2 ∧
    ((get_youtube_homepage_data envWithinLimits 2).elim 0
      (fun d => d.trending_music.length)) ≤ 2 ∧
    ((get_playlist_info envWithinLimits "u" 2).elim 0 (fun p => p.songs.length)) ≤ 2 ∧
    ((get_ytmusic_playlist envWithinLimits "p" 2).elim 0 (fun p => p.songs.length)) ≤ 2 ∧
    (get_trending_by_country envWithinLimits "US" 2).length ≤ 2 := by
  have hr : respectsLimits envWithinLimits := by
    refine ⟨?_, ?_, ?_, ?_⟩
    · intro q n rs h
      simp only [envWithinLimits, envAllFail, Except.ok.injEq] at h
      rw [← h]
      simp [Nat.min_le_left]
    · intro n q sr es h
      simp [envWithinLimits, envAllFail] at h
    · intro u n pr es h
      simp [envWithinLimits, envAllFail] at h
    · intro p n ts h
      simp [envWithinLimits, envAllFail] at h
  have h := list_ops_respect_limit envWithinLimits hr
  exact ⟨hr, h.1 _ _, h.2.1 _ _, h.2.2.1 _, h.2.2.2.1 _ _, h.2.2.2.2.1 _ _, h.2.2.2.2.2 _ _⟩

/-- C6: when the extraction provider raises a bot-detection-class error on
`get_audio_url`, exactly one degraded fallback attempt runs (the traced
attempt counter is 1) and its result — URL or `None` — is what the
operation returns; a non-bot-class error yields `None` with no degraded
attempt (counter 0). -/
theorem audio_url_bot_detection_single_retry (env : Env) (v : String) (e : Err)
    (h : env.extractUrl (watchUrl v) = .error e) :
    (isBotError e = true →
      get_audio_url_traced env v = (get_audio_url_fallback env v, 1)) ∧
    (isBotError e = false → get_audio_url_traced env v = (none, 0)) := by
  constructor <;> intro hb <;> simp [get_audio_url_traced, h, hb]

/-- Witness for C6 at concrete environments: one degraded attempt whose
result is returned on a bot-class error; no attempt and `None` otherwise. -/
theorem audio_url_bot_detection_single_retry_witness :
    isBotError "Sign in to confirm you are not a bot" = true ∧
    get_audio_url_traced envBot "dQw4w9WgXcQ" = (some "http://degraded/audio", 1) ∧
    isBotError "HTTP Error 404: Not Found" = false ∧
    get_audio_url_traced envPlainError "dQw4w9WgXcQ" = (none, 0) := by
  have h1 := audio_url_bot_detection_single_retry envBot "dQw4w9WgXcQ"
    "Sign in to confirm you are not a bot" rfl
  have h2 := audio_url_bot_detection_single_retry envPlainError "dQw4w9WgXcQ"
    "HTTP Error 404: Not Found" rfl
  refine ⟨by decide, ?_, by decide, h2.2 (by decide)⟩
  rw [h1.1 (by decide)]
  decide

lemma insertDescBy_head {α : Type} (k : α → Int) (x : α) (l : List α) :
    (insertDescBy k x l).head? =
      some (match l.head? with
            | none => x
            | some y => if k x ≥ k y then x else y) := by
  cases l with
  | nil => rfl
  | cons y ys =>
    simp only [insertDescBy]
    by_cases h : k x ≥ k y
    · simp [h]
    · simp [h]

lemma sortDescBy_head {α : Type} (k : α → Int) (l : List α) :
    (sortDescBy k l).head? = firstMaxBy k l := by
  induction l with
  | nil => rfl
  | cons x xs ih =>
    have hstep : sortDescBy k (x :: xs) = insertDescBy k x (sortDescBy k xs) := rfl
    rw [hstep, insertDescBy_head, ih]
    cases hf : firstMaxBy k xs with
    | none => simp [firstMaxBy, hf]
    | some y =>
      simp only [firstMaxBy, hf]
      by_cases h : k x ≥ k y
      · simp [h]
      · simp [h]

/-- C7: `selectBestAudioFormat` filters out candidates whose audio codec is
`'none'`, picks among the remainder the maximum by quality (missing/null
quality counts as 0, ties keep the first maximal candidate — the stable
descending sort's head IS the first maximal element) and returns that
candidate's URL, or `none` when the filtered set is empty; the spec's two
examples hold. -/
theorem select_best_audio_format_spec :
    (∀ fs : List FormatEntry,
      selectBestAudioFormat fs =
        (firstMaxBy qualityKey (fs.filter (fun f => f.acodec != some "none"))).bind
          FormatEntry.url) ∧
    selectBestAudioFormat
      [{ acodec := some "none", quality := some 9, url := some "u1" },
       { acodec := some "aac", quality := some 3, url := some "u2" },
       { acodec := some "opus", quality := some 7, url := some "u3" }] = some "u3" ∧
    selectBestAudioFormat [] = none := by
  refine ⟨?_, by decide, by decide⟩
  intro fs
  have h := sortDescBy_head qualityKey (fs.filter (fun f => f.acodec != some "none"))
  simp only [selectBestAudioFormat]
  cases hs : sortDescBy qualityKey (fs.filter (fun f => f.acodec != some "none")) with
  | nil =>
    rw [hs] at h
    simp only [List.head?_nil] at h
    rw [← h]
    rfl
  | cons best rest =>
    rw [hs] at h
    simp only [List.head?_cons] at h
    rw [← h]
    rfl

lemma pfx_infx {α : Type} {p l : List α} (h : p <+: l) : p <:+: l := by
  obtain ⟨t, ht⟩ := h
  exact ⟨[], t, by simpa using ht⟩

lemma infx_cons {α : Type} {p l : List α} {c : α} (h : p <:+: l) : p <:+: c :: l := by
  obtain ⟨s, t, hst⟩ := h
  exact ⟨c :: s, t, by simp [← hst]⟩

lemma splitOnAuxInfx (c0 : Char) (cs : List Char) :
    ∀ (l : List Char) (skip : Nat) (cur : List Char),
      2 ≤ (splitOnAux c0 cs l skip cur).length → (c0 :: cs) <:+: l := by
  intro l
  induction l with
  | nil =>
    intro skip cur h
    simp [splitOnAux] at h
  | cons c rest ih =>
    intro skip cur h
    match skip with
    | skip' + 1 =>
      have h2 : 2 ≤ (splitOnAux c0 cs rest skip' cur).length := by
        simpa [splitOnAux] using h
      exact infx_cons (ih skip' cur h2)
    | 0 =>
      by_cases hp : pfxB (c0 :: cs) (c :: rest) = true
      · have hpre : (c0 :: cs) <+: (c :: rest) := of_decide_eq_true (by simpa [pfxB] using hp)
        exact pfx_infx hpre
      · have h2 : 2 ≤ (splitOnAux c0 cs rest 0 (c :: cur)).length := by
          simpa [splitOnAux, hp] using h
        exact infx_cons (ih 0 (c :: cur) h2)

lemma pySplit_two_contains (s : String) (x y : String)
    (h : pySplit s " by " = [x, y]) : pyContains s "by" = true := by
  have hdef : pySplit s " by " = (splitOnAux ' ' ['b', 'y', ' '] s.toList 0 []).map String.mk := rfl
  rw [hdef] at h
  have hlen : (splitOnAux ' ' ['b', 'y', ' '] s.toList 0 []).length = 2 := by
    have h2 := congrArg List.length h
    simpa using h2
  have hsep : ([' ', 'b', 'y', ' '] : List Char) <:+: s.toList :=
    splitOnAuxInfx ' ' ['b', 'y', ' '] s.toList 0 [] (by omega)
  have hby : (['b', 'y'] : List Char) <:+: [' ', 'b', 'y', ' '] := by decide
  have hc : (['b', 'y'] : List Char) <:+: s.toList := hby.trans hsep
  simpa [pyContains] using decide_eq_true hc

/-- C8 counterexample: on `"A -  B"` (two spaces after the dash) the code
strips the split parts — artist `"A"`, title `"B"` — while the claim as
stated (left part → artist, right part → title, verbatim) yields the
title `" B"`. -/
theorem split_artist_title_strip_cex :
    splitArtistTitle (some "A -  B") (some "u") = ("A", "B") ∧
    claimSplitArtistTitle (some "A -  B") (some "u") = ("A", " B") ∧
    (("A", "B") : String × String) ≠ ("A", " B") := by decide

/-- C8 (amended): the code's artist/title heuristic equals the claim's
case analysis with every split part whitespace-stripped (and, in the
`" by "` branch, stripped before title-casing); the claimed examples hold,
in particular `"Cool Song by The Band"` with uploader `"uploaderX"` yields
artist `"The Band"` and title `"Cool Song"`. -/
theorem split_artist_title_spec :
    (∀ rt u, splitArtistTitle rt u = claimSplitArtistTitleStripped rt u) ∧
    splitArtistTitle (some "Cool Song by The Band") (some "uploaderX") =
      ("The Band", "Cool Song") ∧
    splitArtistTitle (some "Artist - Title") (some "uploaderX") = ("Artist", "Title") ∧
    splitArtistTitle (some "Just A Title") (some "Uploader Y") =
      ("Uploader Y", "Just A Title") := by
  refine ⟨?_, by decide, by decide, by decide⟩
  intro rt u
  simp only [splitArtistTitle, claimSplitArtistTitleStripped]
  by_cases h1 : pyContains (rt.getD "Unknown Title") " - " = true
  · simp [h1]
  · simp only [Bool.not_eq_true] at h1
    simp only [h1, Bool.false_eq_true, if_false]
    rcases hs : pySplit (pyLower (rt.getD "Unknown Title")) " by " with _ | ⟨x, _ | ⟨y, _ | ⟨z, zs⟩⟩⟩
    · by_cases hc : pyContains (pyLower (rt.getD "Unknown Title")) "by" = true <;>
        simp [hs, hc]
    · by_cases hc : pyContains (pyLower (rt.getD "Unknown Title")) "by" = true <;>
        simp [hs, hc]
    · have hc := pySplit_two_contains _ x y hs
      simp [hs, hc]
    · by_cases hc : pyContains (pyLower (rt.getD "Unknown Title")) "by" = true <;>
        simp [hs, hc]

lemma extract_song_metadata_source (e : RawEntry) (r : SongRecord)
    (h : extract_song_metadata e = some r) : r.source = none := by
  cases ha : audioStepE e with
  | none => simp [extract_song_metadata, ha] at h
  | some a =>
    cases ht : thumbStepE e with
    | none => simp [extract_song_metadata, ha, ht] at h
    | some t =>
      simp [extract_song_metadata, ha, ht] at h
      rw [← h]

lemma song_details_fallback_source (env : Env) (url : String) (r : SongRecord)
    (h : song_details_fallback env url = some r) : r.source ≠ some "ytmusicapi" := by
  unfold song_details_fallback at h
  cases hx : env.extractUrl url with
  | ok info =>
    rw [hx] at h
    cases hm : extract_song_metadata info with
    | none => simp [hm] at h
    | some r2 =>
      simp only [hm] at h
      have hr : r2 = r := by simpa using h
      rw [← hr, extract_song_metadata_source info r2 hm]
      simp
  | error e =>
    rw [hx] at h
    by_cases hb : isBotError e = true
    · simp only [hb, if_true] at h
      unfold get_song_details_minimal at h
      cases hmm : env.extractMinimalUrl url with
      | error e2 => simp [hmm] at h
      | ok info =>
        simp only [hmm, Option.some.injEq] at h
        rw [← h]
        simp
    · simp [hb] at h

/-- C9: whenever `get_song_details` returns a record tagged
`source = "ytmusicapi"` (produced only by the structured-metadata primary
path), that record's `id` equals the video id extracted from the input URL
(which therefore exists); and a primary search result whose converted
record's id differs from the extracted video id is never returned — the
operation falls through to the extraction-provider fetch. -/
theorem song_details_primary_id_matches (env : Env) (url : String) :
    (∀ r, get_song_details env url = some r → r.source = some "ytmusicapi" →
      r.id = extract_video_id_from_url url ∧ (extract_video_id_from_url url).isSome = true) ∧
    (∀ v e0 rest si, extract_video_id_from_url url = some v →
      env.ytmusicAvailable = true →
      env.ytSearch v 1 = .ok (e0 :: rest) →
      convert_ytmusic_to_standard e0 = some si →
      si.id ≠ some v →
      get_song_details env url = song_details_fallback env url) := by
  constructor
  · intro r hr hsrc
    unfold get_song_details at hr
    cases hv : extract_video_id_from_url url with
    | none =>
      simp only [hv] at hr
      exact absurd hsrc (song_details_fallback_source env url r hr)
    | some v =>
      by_cases ha : env.ytmusicAvailable
      · simp only [hv, ha] at hr
        cases hsx : env.ytSearch v 1 with
        | error e =>
          simp only [hsx] at hr
          exact absurd hsrc (song_details_fallback_source env url r hr)
        | ok rs =>
          cases rs with
          | nil =>
            simp only [hsx] at hr
            exact absurd hsrc (song_details_fallback_source env url r hr)
          | cons e0 rest =>
            simp only [hsx] at hr
            cases hcv : convert_ytmusic_to_standard e0 with
            | none =>
              simp only [hcv] at hr
              exact absurd hsrc (song_details_fallback_source env url r hr)
            | some si =>
              simp only [hcv] at hr
              by_cases hid : si.id = some v
              · rw [if_pos hid] at hr
                have hsir : si = r := by simpa using hr
                rw [← hsir, hid]
                simp
              · rw [if_neg hid] at hr
                exact absurd hsrc (song_details_fallback_source env url r hr)
      · simp only [hv, ha] at hr
        exact absurd hsrc (song_details_fallback_source env url r hr)
  · intro v e0 rest si hv ha hsx hcv hid
    unfold get_song_details
    simp only [hv, ha, hsx, hcv, if_neg hid]

/-- Witness for C9 at concrete environments and a concrete URL. -/
theorem song_details_primary_id_matches_witness :
    nineRecord.id = extract_video_id_from_url "https://youtu.be/dQw4w9WgXcQ" ∧
    (extract_video_id_from_url "https://youtu.be/dQw4w9WgXcQ").isSome = true ∧
    get_song_details envNineB "https://youtu.be/dQw4w9WgXcQ" =
      song_details_fallback envNineB "https://youtu.be/dQw4w9WgXcQ" := by
  have h1 := (song_details_primary_id_matches envNine "https://youtu.be/dQw4w9WgXcQ").1
    nineRecord (by decide) (by decide)
  have h2 := (song_details_primary_id_matches envNineB "https://youtu.be/dQw4w9WgXcQ").2
    "dQw4w9WgXcQ" mismatchItem [] mismatchRecord (by decide) (by decide) rfl
    (by decide) (by decide)
  exact ⟨h1.1, h1.2, h2⟩

/-- C10: in the degraded (bot-detection) audio fallback, when the response
has no direct `url` field, the returned URL is that of the FIRST format in
provider order with a truthy url — no audio-codec filtering and no quality
ranking — so a non-audio (video-only) format's URL can be returned, as the
concrete case shows. -/
theorem audio_fallback_first_url_format :
    (∀ (env : Env) (v : String) (info : RawEntry),
      env.extractFallbackUrl (watchUrl v) = .ok info → info.url = none →
      get_audio_url_fallback env v =
        ((info.formats.getD []).find? (fun f => truthyStr f.url)).bind (fun f => f.url)) ∧
    get_audio_url_fallback envVideoFirst "dQw4w9WgXcQ" = some "http://video-only/stream" := by
  constructor
  · intro env v info h hurl
    unfold get_audio_url_fallback
    rw [h]
    simp only [hurl]
    cases hf : info.formats with
    | none => simp [hf]
    | some fs => simp [hf]
  · decide

/-- Witness for C10's universally-quantified part at a concrete
environment. -/
theorem audio_fallback_first_url_format_witness :
    get_audio_url_fallback envVideoFirst "dQw4w9WgXcQ" =
      ((vfInfo.formats.getD []).find? (fun f => truthyStr f.url)).bind (fun f => f.url) :=
  audio_fallback_first_url_format.1 envVideoFirst "dQw4w9WgXcQ" vfInfo rfl rfl
